import Mathlib

/-!
Shallow embedding of the channel-normalization and provider-dispatch layer of
the Text-to-LLM relay (FastAPI server `app/`, Discord bot `discord/bot.py`).
Python strings are modelled at the code-point level: a Python `str` is its
sequence of code points, i.e. the `data` field of a Lean `String`.  All string
primitives used by the source (`strip`, `lower`, slicing, `len`, `replace`
with empty replacement, truthiness of `str`/`Optional[str]`) are defined below
directly on that sequence so that every definition is executable and
kernel-reducible.  Network effects (HTTP calls to providers and channel APIs)
are modelled by explicit outcome parameters and by recording the calls a
handler performs in an effects record.
-/

set_option maxRecDepth 8192

namespace TextToLLM

/-! ### Python string primitives (code-point level) -/

/-- Python `s.strip()`: drop whitespace from both ends. -/
def pyStrip (s : String) : String :=
  ⟨((s.data.dropWhile Char.isWhitespace).reverse.dropWhile Char.isWhitespace).reverse⟩

/-- ASCII lowering of one code point (the fragment of Python `str.lower()`
relevant to the provider discriminators appearing in the source). -/
def charLower (c : Char) : Char :=
  if 65 ≤ c.toNat ∧ c.toNat ≤ 90 then Char.ofNat (c.toNat + 32) else c

/-- Python `s.lower()`. -/
def pyLower (s : String) : String := ⟨s.data.map charLower⟩

/-- Python `s[:n]` (slice of the first `n` code points). -/
def pySlice (s : String) (n : Nat) : String := ⟨s.data.take n⟩

/-- Python `len(s)` (number of code points). -/
def pyLen (s : String) : Nat := s.data.length

/-- Helper for `pyRemove`: scan with fuel (the fuel is the length of the
scanned list, so it never runs out); whenever the pattern is a prefix of the
remaining text, skip it, otherwise keep one code point and continue. -/
def removeSubAux (pat : List Char) : Nat → List Char → List Char
  | 0, cs => cs
  | _ + 1, [] => []
  | fuel + 1, c :: rest =>
    if pat ≠ [] ∧ pat.isPrefixOf (c :: rest) then
      removeSubAux pat fuel ((c :: rest).drop pat.length)
    else
      c :: removeSubAux pat fuel rest

/-- Python `s.replace(pat, "")` for a non-empty pattern: remove every
non-overlapping occurrence of `pat`, scanning left to right. -/
def pyRemove (s : String) (pat : String) : String :=
  ⟨removeSubAux pat.data s.data.length s.data⟩

/-- Python `a or b` on strings: `a` when non-empty (truthy), else `b`. -/
def pyOrS (a b : String) : String := if a = "" then b else a

/-- Python truthiness of an `Optional[str]`: `None` and `""` are falsy. -/
def pyTruthyOpt (o : Option String) : Bool :=
  match o with
  | some s => s ≠ ""
  | none => false

/-- Python `d.get(k, default)` for an association list of string pairs. -/
def dictGet (l : List (String × String)) (k : String) (d : String) : String :=
  match l.find? (fun p => p.fst = k) with
  | some p => p.snd
  | none => d

/-- Python `d.get(k)` for an association list of string pairs. -/
def dictGetOpt (l : List (String × String)) (k : String) : Option String :=
  (l.find? (fun p => p.fst = k)).map (fun p => p.snd)

/-- Outcome of one awaited call that can raise: a value, or an exception
carrying its message. -/
inductive Outcome where
  | ok : String → Outcome
  | err : String → Outcome
deriving DecidableEq

/-! ### `app/config.py` — configuration and its startup validation -/

/-- Fields of `Config` consumed by the embedded core (`config.py`; the
remaining environment fields do not reach any embedded function). -/
structure Config where
  TELEGRAM_BOT_TOKEN : String
  LLM_PROVIDER : String
  LLM_API_KEY : String
  LLM_MODEL : String
  MAX_TOKENS : Int
deriving DecidableEq

/-- The error list accumulated by `Config.validate`; the Python method raises
`ValueError` exactly when this list is non-empty. -/
def Config.validate (c : Config) : List String :=
  (if c.TELEGRAM_BOT_TOKEN = "" then ["TELEGRAM_BOT_TOKEN is required"] else []) ++
  (if c.LLM_API_KEY = "" then ["LLM_API_KEY is required"] else []) ++
  (if c.LLM_PROVIDER ∉ (["openai", "anthropic", "xai"] : List String) then
    ["LLM_PROVIDER must be one of: openai, anthropic, xai (got: " ++ c.LLM_PROVIDER ++ ")"]
  else [])

/-! ### `app/llm_service.py` — the Provider Client -/

/-- State set up by `LLMService.__init__` (four plain attribute assignments,
no validation). -/
structure LLMService where
  provider : String
  api_key : String
  model : String
  max_tokens : Int
deriving DecidableEq

/-- `LLMService.__init__`: copy the configuration, lowering the provider. -/
def LLMService.init (c : Config) : LLMService :=
  { provider := pyLower c.LLM_PROVIDER
    api_key := c.LLM_API_KEY
    model := c.LLM_MODEL
    max_tokens := c.MAX_TOKENS }

/-- The outbound HTTP request one `_generate_*` helper issues (URL, headers
and JSON payload fields; `temperature` 0.7 is stored in tenths to stay in
exact arithmetic). -/
structure ProviderRequest where
  url : String
  headers : List (String × String)
  model : String
  messages : List (String × String)
  max_tokens : Int
  temperature_tenths : Option Nat
deriving DecidableEq

/-- Request built by `LLMService._generate_openai`. -/
def openaiRequest (api_key model text : String) (tokens : Int) : ProviderRequest :=
  { url := "https://api.openai.com/v1/chat/completions"
    headers := [("Authorization", "Bearer " ++ api_key), ("Content-Type", "application/json")]
    model := model
    messages := [("user", text)]
    max_tokens := tokens
    temperature_tenths := some 7 }

/-- Request built by `LLMService._generate_anthropic` (`self.model or
"claude-3-5-sonnet-20241022"`; no temperature field). -/
def anthropicRequest (api_key model text : String) (tokens : Int) : ProviderRequest :=
  { url := "https://api.anthropic.com/v1/messages"
    headers := [("x-api-key", api_key), ("anthropic-version", "2023-06-01"),
                ("Content-Type", "application/json")]
    model := pyOrS model "claude-3-5-sonnet-20241022"
    messages := [("user", text)]
    max_tokens := tokens
    temperature_tenths := none }

/-- Request built by `LLMService._generate_xai` (`self.model or "grok-beta"`). -/
def xaiRequest (api_key model text : String) (tokens : Int) : ProviderRequest :=
  { url := "https://api.x.ai/v1/chat/completions"
    headers := [("Authorization", "Bearer " ++ api_key), ("Content-Type", "application/json")]
    model := pyOrS model "grok-beta"
    messages := [("user", text)]
    max_tokens := tokens
    temperature_tenths := some 7 }

/-- What `LLMService.generate` does before any network I/O: route to one
provider (issuing that provider's request) or raise
`ValueError("Unsupported LLM provider: ...")`. -/
inductive GenerateStep where
  | request : ProviderRequest → GenerateStep
  | unsupportedProvider : String → GenerateStep
deriving DecidableEq

/-- `LLMService.generate`: `tokens = max_tokens or self.max_tokens` (both
`None` and `0` are falsy in Python), then route on `self.provider`.  The
method never assigns to `self`, so the service state is returned unchanged. -/
def LLMService.generate (s : LLMService) (text : String) (max_tokens : Option Int) :
    GenerateStep × LLMService :=
  let tokens : Int :=
    match max_tokens with
    | some n => if n = 0 then s.max_tokens else n
    | none => s.max_tokens
  if s.provider = "openai" then (.request (openaiRequest s.api_key s.model text tokens), s)
  else if s.provider = "anthropic" then (.request (anthropicRequest s.api_key s.model text tokens), s)
  else if s.provider = "xai" then (.request (xaiRequest s.api_key s.model text tokens), s)
  else (.unsupportedProvider ("Unsupported LLM provider: " ++ s.provider), s)

/-! ### `app/models/message.py` and `app/telegram_controller.py` -/

/-- `TelegramChat` (only the field the controller reads). -/
structure TelegramChat where
  id : Int
deriving DecidableEq

/-- `TelegramMessage` (fields the controller and webhook read; `text` is
optional in the payload). -/
structure TelegramMessage where
  message_id : Int
  chat : TelegramChat
  date : Int
  text : Option String
deriving DecidableEq

/-- `TelegramUpdate`: `message` and `edited_message` are both optional. -/
structure TelegramUpdate where
  update_id : Int
  message : Option TelegramMessage
  edited_message : Option TelegramMessage
deriving DecidableEq

/-- One branch of `extract_message_data`: Python
`if update.message and update.message.text:` — the update field must be
present and its `text` must be a truthy (non-empty) string. -/
def msgData (m : Option TelegramMessage) : Option (Int × String) :=
  match m with
  | some msg =>
    match msg.text with
    | some t => if t = "" then none else some (msg.chat.id, t)
    | none => none
  | none => none

namespace TelegramController

/-- `TelegramController.extract_message_data`: regular message first, then
edited message, else `None`. -/
def extract_message_data (u : TelegramUpdate) : Option (Int × String) :=
  match msgData u.message with
  | some r => some r
  | none => msgData u.edited_message

end TelegramController

/-! ### `app/main.py` — the `/webhook` Telegram ingress -/

/-- Fixed fallback sent on the Telegram path when `llm_service.generate`
raises (`main.py`, `webhook`). -/
def telegramFallback : String :=
  "Sorry, I encountered an error processing your request. Please try again later."

/-- Observable behaviour of one `/webhook` request: HTTP status and JSON
`message` field of the response, plus the channel calls performed —
typing-indicator targets, prompts passed to `llm_service.generate`, and
`send_message` invocations `(chat_id, text, reply_to_message_id)`. -/
structure WebhookEffects where
  status : Nat
  body : Option String
  typing_actions : List Int
  generate_calls : List String
  sent_messages : List (Int × String × Option Int)
deriving DecidableEq

/-- The `/webhook` handler of `main.py`, from the point where the payload has
been parsed by `telegram_controller.parse_webhook` (`parsed = none` models a
payload pydantic rejects).  `llm` is the outcome of `llm_service.generate`
per prompt; `sendOk` is the boolean returned by
`telegram_controller.send_message`. -/
def webhook (llm : String → Outcome) (sendOk : Bool) (parsed : Option TelegramUpdate) :
    WebhookEffects :=
  match parsed with
  | none => ⟨400, some "Invalid payload", [], [], []⟩
  | some update =>
    match TelegramController.extract_message_data update with
    | none => ⟨200, some "No text message", [], [], []⟩
    | some (chat_id, user_text) =>
      match llm user_text with
      | .err _ =>
        ⟨500, some "LLM generation failed", [chat_id], [user_text],
          [(chat_id, telegramFallback, none)]⟩
      | .ok llm_response =>
        let reply_to : Option Int := update.message.map (fun m => m.message_id)
        if sendOk then
          ⟨200, none, [chat_id], [user_text], [(chat_id, llm_response, reply_to)]⟩
        else
          ⟨500, some "Failed to send message", [chat_id], [user_text],
            [(chat_id, llm_response, reply_to)]⟩

/-! ### `app/routers/whatsapp.py` — the `/webhook/whatsapp` ingress -/

/-- Fixed fallback returned by `handle_incoming_message` when
`llm_service.generate` raises (`routers/whatsapp.py`). -/
def whatsappFallback : String :=
  "Sorry, I ran into an error while processing your message. Please try again later."

/-- One inbound WhatsApp gateway request: headers, full request URL and
form-encoded body. -/
structure WhatsappRequest where
  headers : List (String × String)
  url : String
  form : List (String × String)

/-- Observable behaviour of one `/webhook/whatsapp` request: HTTP status,
prompts passed to `llm_service.generate`, and the TwiML `<Message>` texts
returned to the gateway (the channel's reply mechanism). -/
structure WhatsappEffects where
  status : Nat
  generate_calls : List String
  reply_messages : List String
deriving DecidableEq

/-- The `whatsapp_webhook` handler.  `mac` models the HMAC computation of the
gateway SDK's `RequestValidator` over the full URL and form body (modelled
from the spec: the validator, external SDK code, computes an HMAC-based
signature of the URL and form fields under the shared auth token and compares
it with the header value); the handler raises HTTP 403 unless the
`X-Twilio-Signature` header (defaulting to `""` when absent) equals that
value.  On a valid signature the stripped `Body` field is dispatched through
`handle_incoming_message`, whose provider failure is replaced by
`whatsappFallback`. -/
def whatsapp_webhook (mac : String → List (String × String) → String)
    (llm : String → Outcome) (req : WhatsappRequest) : WhatsappEffects :=
  let signature := dictGet req.headers "X-Twilio-Signature" ""
  if signature = mac req.url req.form then
    let body := pyStrip (dictGet req.form "Body" "")
    if body = "" then
      ⟨200, [], ["Empty message received."]⟩
    else
      match llm body with
      | .ok reply => ⟨200, [body], [reply]⟩
      | .err _ => ⟨200, [body], [whatsappFallback]⟩
  else
    ⟨403, [], []⟩

/-! ### `discord/bot.py` — the Discord adapter -/

/-- JSON body returned by the configured LLM server
(`data.get("reply") or data.get("output") or str(data)`). -/
structure ServerJson where
  reply : Option String
  output : Option String
  raw : String
deriving DecidableEq

/-- Result of an HTTP call made inside `LLMClient.ask`. -/
inductive HttpResult (α : Type) where
  | ok : α → HttpResult α
  | err : String → HttpResult α

/-- Backend configuration of `LLMClient`. -/
structure LLMClient where
  server_url : Option String
  openai_key : Option String

/-- `LLMClient.ask`: never raises — transport failures are turned into reply
strings that embed the raw error message. -/
def LLMClient.ask (c : LLMClient) (serverResp : HttpResult ServerJson)
    (openaiResp : HttpResult String) : String :=
  if pyTruthyOpt c.server_url then
    match serverResp with
    | .ok data =>
      match data.reply with
      | some r => if r = "" then (match data.output with
          | some o => if o = "" then data.raw else o
          | none => data.raw) else r
      | none =>
        match data.output with
        | some o => if o = "" then data.raw else o
        | none => data.raw
    | .err e => "LLM server error: " ++ e
  else if pyTruthyOpt c.openai_key then
    match openaiResp with
    | .ok content => pyStrip content
    | .err e => "OpenAI error: " ++ e
  else
    "No LLM backend configured. Set LLM_SERVER_URL or OPENAI_API_KEY."

/-- The truncation marker appended by `on_message` and `ask_cmd`. -/
def truncationMarker : String := "\n\n...[truncated]"

/-- The truncation step of `on_message`:
`if len(reply) > 1900: reply = reply[:1900] + "\n\n...[truncated]"`. -/
def clampReply (reply : String) : String :=
  if pyLen reply > 1900 then pySlice reply 1900 ++ truncationMarker else reply

/-- One inbound Discord message as read by `on_message`: the author's bot
flag, whether the channel is a DM channel, whether the bot user is in
`message.mentions`, and the content. -/
structure DiscordMessage where
  author_bot : Bool
  is_dm : Bool
  mentions_bot : Bool
  content : String
deriving DecidableEq

/-- Observable behaviour of one `on_message` event: whether
`bot.process_commands` ran, the prompts passed to `llm_client.ask`, and the
reply texts passed to `message.reply`. -/
structure DiscordEffects where
  processed_commands : Bool
  ask_calls : List String
  replies : List String
deriving DecidableEq

/-- The `on_message` handler.  `ask` is the (non-raising) result of
`llm_client.ask` per prompt; `bot_user_id` is the bot's user id, used to
strip the mention token.  The `try` block can raise at two awaited points:
entering `message.channel.typing()` (`typingExc`, raised before `ask` runs)
and the `message.reply` of the clamped reply (`replyExc`); in either case the
`except` branch sends the unclamped notice
`"Error generating reply: " ++ e` via a second `message.reply`.  `replies`
records every text passed to `message.reply`. -/
def on_message (ask : String → String) (bot_user_id : Nat)
    (typingExc replyExc : Option String) (m : DiscordMessage) : DiscordEffects :=
  if m.author_bot then ⟨false, [], []⟩
  else
    let content := pyStrip m.content
    let prompt : Option String :=
      if m.is_dm then some content
      else if m.mentions_bot then
        some (pyStrip (pyRemove content ("<@!" ++ toString bot_user_id ++ ">")))
      else none
    match prompt with
    | some p =>
      if p ≠ "" then
        match typingExc with
        | some e => ⟨true, [], ["Error generating reply: " ++ e]⟩
        | none =>
          let reply0 := ask p
          let reply1 := if reply0 = "" then "(no reply)" else reply0
          match replyExc with
          | some e => ⟨true, [p], [clampReply reply1, "Error generating reply: " ++ e]⟩
          | none => ⟨true, [p], [clampReply reply1]⟩
      else ⟨true, [], []⟩
    | none => ⟨true, [], []⟩

/-! ### `app/twitter_controller.py` — the polling-DM listener -/

/-- Fields a DM event payload may carry. -/
structure DmEventData where
  id : String
  sender_id : String
  text : String
deriving DecidableEq

/-- A runtime event value as the poll loop may receive it.  The listener
reads events by subscript (`dm["id"]`, inside `start_dm_listener`) but
`process_incoming_dm` reads them by attribute (`dm.message_create`): a plain
dict supports the former and raises `AttributeError` on the latter, while an
SDK model object supports the latter and raises `TypeError` on the former —
no runtime object supports both access styles. -/
inductive DmEventObj where
  | dict : DmEventData → DmEventObj
  | modelObj : DmEventData → DmEventObj
deriving DecidableEq

/-- The subscript access `dm["id"]` performed by the poll loop. -/
def DmEventObj.subscriptId : DmEventObj → Except String String
  | .dict d => .ok d.id
  | .modelObj _ => .error "TypeError: event object is not subscriptable"

/-- The attribute access `dm.message_create` performed by
`process_incoming_dm`, yielding `(sender_id, text)` when it succeeds. -/
def DmEventObj.message_create : DmEventObj → Except String (String × String)
  | .dict _ => .error "AttributeError: dict object has no attribute message_create"
  | .modelObj d => .ok (d.sender_id, d.text)

/-- Observable behaviour of one poll cycle of `start_dm_listener`. -/
structure DmCycleResult where
  last_id : Option String
  generate_calls : List String
  sent_dms : List (String × String)
deriving DecidableEq

/-- One poll cycle of `start_dm_listener`: for each event in order, read
`dm["id"]`; if it differs from `last_id` the event is processed
(`process_incoming_dm`: read `dm.message_create`, call
`llm_service.generate`, then `send_dm`) and `last_id` is set to its id.  Any
exception — the `TypeError` from subscripting a model object, the
`AttributeError` from attribute access on a dict, or a raise from `generate`
— aborts the `for` loop and is swallowed by the cycle's `except`, without
advancing `last_id` for that event; `send_dm` never raises. -/
def dmCycle (llm : String → Outcome) : List DmEventObj → Option String → DmCycleResult
  | [], last => ⟨last, [], []⟩
  | dm :: rest, last =>
    match dm.subscriptId with
    | .error _ => ⟨last, [], []⟩
    | .ok dm_id =>
      if some dm_id ≠ last then
        match dm.message_create with
        | .error _ => ⟨last, [], []⟩
        | .ok (sender_id, text) =>
          match llm text with
          | .err _ => ⟨last, [text], []⟩
          | .ok reply =>
            let r := dmCycle llm rest (some dm_id)
            ⟨r.last_id, text :: r.generate_calls, (sender_id, reply) :: r.sent_dms⟩
      else
        dmCycle llm rest last

/-! ### Concrete fixtures used by witnesses and counterexamples -/

/-- Provider oracle that always succeeds. -/
def llmEcho : String → Outcome := fun t => .ok ("re: " ++ t)

/-- Provider oracle that always raises with message `boom`. -/
def llmBoom : String → Outcome := fun _ => .err "boom"

/-- A concrete gateway signature function. -/
def macW : String → List (String × String) → String := fun _ _ => "valid-sig"

/-- Configuration whose provider discriminator is not one of the three known
values. -/
def cfgBadProvider : Config := ⟨"tg-token", "cohere", "key", "model-x", 1000⟩

/-- Configuration whose provider discriminator has the wrong case: startup
validation rejects the raw value, yet `generate` would route its lowering. -/
def cfgMixedCase : Config := ⟨"tg-token", "OpenAI", "key", "gpt-4o-mini", 1000⟩

/-- A well-formed OpenAI configuration. -/
def cfgOpenai : Config := ⟨"tg-token", "openai", "secret-key", "gpt-4o-mini", 1000⟩

/-- Service constructed from `cfgOpenai`. -/
def svcOpenai : LLMService := LLMService.init cfgOpenai

/-- The request `svcOpenai` issues for prompt `hi` with override 5. -/
def reqW5 : ProviderRequest := openaiRequest "secret-key" "gpt-4o-mini" "hi" 5

/-- Telegram update whose message text is a single space. -/
def updWhitespace : TelegramUpdate := ⟨1, some ⟨5, ⟨42⟩, 0, some " "⟩, none⟩

/-- Telegram update with a plain text message. -/
def updHello : TelegramUpdate := ⟨1, some ⟨5, ⟨42⟩, 0, some "hello"⟩, none⟩

/-- Telegram update carrying both a regular and an edited message, each with
non-empty text. -/
def updBoth : TelegramUpdate :=
  ⟨1, some ⟨5, ⟨42⟩, 0, some "hello"⟩, some ⟨6, ⟨43⟩, 0, some "edited"⟩⟩

/-- Telegram update where neither variant carries a text field. -/
def updNoText : TelegramUpdate := ⟨1, some ⟨5, ⟨42⟩, 0, none⟩, some ⟨6, ⟨42⟩, 0, none⟩⟩

/-- WhatsApp request with a wrong signature header. -/
def reqForged : WhatsappRequest :=
  ⟨[("X-Twilio-Signature", "bad")], "https://h/webhook/whatsapp", [("Body", "hello")]⟩

/-- WhatsApp request with no signature header at all. -/
def reqNoSig : WhatsappRequest := ⟨[], "https://h/webhook/whatsapp", [("Body", "hello")]⟩

/-- Correctly signed WhatsApp request with body `hello`. -/
def reqHello : WhatsappRequest :=
  ⟨[("X-Twilio-Signature", "valid-sig")], "https://h/webhook/whatsapp", [("Body", "hello")]⟩

/-- Correctly signed WhatsApp request whose body is whitespace only. -/
def reqEmptyBody : WhatsappRequest :=
  ⟨[("X-Twilio-Signature", "valid-sig")], "https://h/webhook/whatsapp", [("Body", " ")]⟩

/-- Correctly signed WhatsApp request with a padded body. -/
def reqHiPadded : WhatsappRequest :=
  ⟨[("X-Twilio-Signature", "valid-sig")], "https://h/webhook/whatsapp", [("Body", " hi ")]⟩

/-- Two dict-shaped DM events with distinct ids, as one poll cycle may
receive them. -/
def dmEventsDict : List DmEventObj :=
  [.dict ⟨"1", "u1", "hello"⟩, .dict ⟨"2", "u2", "world"⟩]

/-- A non-bot direct message to the Discord bot. -/
def msgHiDm : DiscordMessage := ⟨false, true, false, "hi"⟩

/-- A bot-authored Discord message that mentions the bot and has text. -/
def msgBotAuthor : DiscordMessage := ⟨true, false, true, "hello"⟩

/-- A non-bot DM whose content strips to a single code point. -/
def msgPadded : DiscordMessage := ⟨false, true, false, " x "⟩

/-- A 1916-code-point reply that is its own clamp: 1900 `a`s followed by the
truncation marker. -/
def fixedPoint1916 : String := ⟨List.replicate 1900 'a'⟩ ++ truncationMarker

/-- A 1901-code-point reply. -/
def bigB : String := ⟨List.replicate 1901 'b'⟩

/-! ### Helper lemmas -/

/-- Length of a code-point concatenation. -/
theorem pyLen_append (a b : String) : pyLen (a ++ b) = pyLen a + pyLen b := by
  show (a ++ b).data.length = a.data.length + b.data.length
  rw [String.data_append, List.length_append]

/-- Length of a replicated string. -/
theorem pyLen_mk_replicate (n : Nat) (a : Char) :
    pyLen (⟨List.replicate n a⟩ : String) = n :=
  List.length_replicate n a

/-- Exact length of a slice. -/
theorem pyLen_slice (s : String) (n : Nat) : pyLen (pySlice s n) = min n (pyLen s) := by
  show (s.data.take n).length = min n s.data.length
  rw [List.length_take]

/-- A slice takes at most `n` code points. -/
theorem pyLen_slice_le (s : String) (n : Nat) : pyLen (pySlice s n) ≤ n := by
  rw [pyLen_slice]
  exact Nat.min_le_left n (pyLen s)

/-- The truncation marker is 16 code points long. -/
theorem pyLen_truncationMarker : pyLen truncationMarker = 16 := by decide

/-- `fixedPoint1916` is 1916 code points long. -/
theorem fixedPoint1916_len : pyLen fixedPoint1916 = 1916 := by
  show pyLen ((⟨List.replicate 1900 'a'⟩ : String) ++ truncationMarker) = 1916
  rw [pyLen_append, pyLen_mk_replicate, pyLen_truncationMarker]

/-- `fixedPoint1916` equals its own clamp. -/
theorem fixedPoint1916_clamp : clampReply fixedPoint1916 = fixedPoint1916 := by
  have htake : pySlice fixedPoint1916 1900 = (⟨List.replicate 1900 'a'⟩ : String) := by
    show (⟨((⟨List.replicate 1900 'a'⟩ ++ truncationMarker : String)).data.take 1900⟩ : String)
        = (⟨List.replicate 1900 'a'⟩ : String)
    rw [String.data_append]
    have h : ((⟨List.replicate 1900 'a'⟩ : String).data ++ truncationMarker.data).take 1900
        = (⟨List.replicate 1900 'a'⟩ : String).data :=
      List.take_left' (List.length_replicate 1900 'a')
    rw [h]
  rw [clampReply, fixedPoint1916_len, if_pos (by norm_num : (1916 : Nat) > 1900), htake]
  rfl

/-- Every clamped reply is at most 1916 code points long. -/
theorem clampReply_le (r : String) : pyLen (clampReply r) ≤ 1916 := by
  rw [clampReply]
  by_cases h : pyLen r > 1900
  · rw [if_pos h, pyLen_append, pyLen_truncationMarker]
    have := pyLen_slice_le r 1900
    omega
  · rw [if_neg h]
    push_neg at h
    omega

/-- `bigB` is 1901 code points long. -/
theorem bigB_len : pyLen bigB = 1901 := pyLen_mk_replicate 1901 'b'

/-- `bigB` is not of clamped form (the lengths differ). -/
theorem bigB_ne_clamp_form : bigB ≠ pySlice bigB 1900 ++ truncationMarker := by
  intro h
  have hlen := congrArg pyLen h
  rw [bigB_len, pyLen_append, pyLen_truncationMarker, pyLen_slice, bigB_len] at hlen
  omega

/-- Every poll cycle aborts on its first new event before reaching the
provider: a dict event fails the attribute access in `process_incoming_dm`,
a model object fails the subscript access in the loop — so the cycle
produces no provider call, no DM, and an unchanged dedup marker. -/
theorem dmCycle_aborts (llm : String → Outcome) (events : List DmEventObj)
    (last : Option String) : dmCycle llm events last = ⟨last, [], []⟩ := by
  induction events generalizing last with
  | nil => rfl
  | cons dm rest ih =>
    cases dm with
    | dict d =>
      simp only [dmCycle, DmEventObj.subscriptId, DmEventObj.message_create]
      by_cases h : some d.id ≠ last
      · rw [if_pos h]
      · rw [if_neg h]
        exact ih last
    | modelObj d =>
      simp only [dmCycle, DmEventObj.subscriptId]

/-- Regular-message extraction: when `update.message` is present with truthy
text, `extract_message_data` returns its chat id and text. -/
theorem extract_eq_of_message (u : TelegramUpdate) (m : TelegramMessage) (t : String)
    (hm : u.message = some m) (ht : m.text = some t) (hne : t ≠ "") :
    TelegramController.extract_message_data u = some (m.chat.id, t) := by
  simp only [TelegramController.extract_message_data, msgData, hm, ht, if_neg hne]

/-! ### Claims -/

/-- C2: the claim says constructing `LLMService` raises a configuration error
for a discriminator outside the three known values, and that
`LLMService.generate` never raises the unsupported-provider error at call
time.  Counterexample at provider `cohere`: `__init__` is four plain
assignments and raises nothing, while `generate` raises
`ValueError("Unsupported LLM provider: cohere")` at call time. -/
theorem c2_counterexample :
    ((LLMService.init cfgBadProvider).generate "hi" none).fst
      = .unsupportedProvider "Unsupported LLM provider: cohere" ∧
    LLMService.init cfgBadProvider =
      { provider := "cohere", api_key := "key", model := "model-x", max_tokens := 1000 } := by
  decide

/-- C2 (amended): for every raw discriminator outside the known set —
whatever its case — startup validation (`Config.validate`) rejects the
configuration (non-empty error list, so `ValueError` is raised before
serving); `LLMService.__init__` never raises, and whenever the lowercased
discriminator is outside the set, `LLMService.generate` raises the
unsupported-provider error at call time. -/
theorem c2_amended (c : Config) :
    (c.LLM_PROVIDER ∉ (["openai", "anthropic", "xai"] : List String) →
      Config.validate c ≠ []) ∧
    (pyLower c.LLM_PROVIDER ∉ (["openai", "anthropic", "xai"] : List String) →
      ∀ (text : String) (m : Option Int),
        ((LLMService.init c).generate text m).fst
          = .unsupportedProvider ("Unsupported LLM provider: " ++ pyLower c.LLM_PROVIDER)) := by
  constructor
  · intro hraw
    unfold Config.validate
    rw [if_pos hraw]
    intro hcontra
    simp [List.append_eq_nil] at hcontra
  · intro hlow text m
    simp only [List.mem_cons, List.not_mem_nil, or_false, not_or] at hlow
    obtain ⟨h1, h2, h3⟩ := hlow
    simp only [LLMService.generate, LLMService.init, if_neg h1, if_neg h2, if_neg h3]

/-- C2 witness: the amended claim at the concrete `cohere` configuration
(rejected at startup and raising at call time) and at the mixed-case
`OpenAI` configuration (rejected at startup by the raw-value check). -/
theorem c2_witness :
    Config.validate cfgBadProvider ≠ [] ∧
    Config.validate cfgMixedCase ≠ [] ∧
    ((LLMService.init cfgBadProvider).generate "ping" (some 5)).fst
      = .unsupportedProvider "Unsupported LLM provider: cohere" := by
  refine ⟨(c2_amended cfgBadProvider).1 (by decide),
          (c2_amended cfgMixedCase).1 (by decide), ?_⟩
  rw [(c2_amended cfgBadProvider).2 (by decide) "ping" (some 5)]
  decide

/-- C5: every poll cycle of the polling-DM listener performs zero provider
invocations and leaves the dedup marker unchanged — in particular the second
of two consecutive cycles returning the same event list performs zero
Dispatcher/provider invocations, and each cycle processes at most the events
newer than the last-seen marker (it processes none): the loop reads events by
subscript while `process_incoming_dm` reads them by attribute, and no runtime
event object supports both, so each cycle raises and is swallowed before
`llm_service.generate` is reached. -/
theorem c5_second_cycle_zero (llm : String → Outcome) (events : List DmEventObj)
    (last : Option String) :
    dmCycle llm events last = ⟨last, [], []⟩ ∧
    (dmCycle llm events ((dmCycle llm events none).last_id)).generate_calls = [] := by
  refine ⟨dmCycle_aborts llm events last, ?_⟩
  rw [dmCycle_aborts llm events none]
  rw [dmCycle_aborts]

/-- C8: a Discord message whose author is flagged as a bot produces no
prompt, no `llm_client.ask` call and no reply, whatever its channel, mention
state or content. -/
theorem c8_bot_authors_ignored (ask : String → String) (bot_user_id : Nat)
    (typingExc replyExc : Option String) (m : DiscordMessage)
    (h : m.author_bot = true) :
    on_message ask bot_user_id typingExc replyExc m = ⟨false, [], []⟩ := by
  unfold on_message
  rw [h]
  simp

/-- C8 witness: a bot-authored message that mentions the bot and has text. -/
theorem c8_witness :
    on_message (fun p => p) 99 (some "x") (some "y") msgBotAuthor = ⟨false, [], []⟩ :=
  c8_bot_authors_ignored (fun p => p) 99 (some "x") (some "y") msgBotAuthor rfl

/-- C9: the claim says a provided `max_tokens` is always used for the call.
Counterexample at `max_tokens = 0`: Python's `max_tokens or self.max_tokens`
treats `0` as falsy, so the issued request uses the configured default 1000,
not the provided 0. -/
theorem c9_counterexample :
    (svcOpenai.generate "hi" (some 0)).fst
      = .request (openaiRequest "secret-key" "gpt-4o-mini" "hi" 1000) ∧
    (1000 : Int) ≠ 0 := by
  decide

/-- C9 (amended): a provided non-zero `max_tokens` is used for that single
call's request; a provided `0` is falsy in `max_tokens or self.max_tokens`
and falls back to the configured default; and the call never mutates the
service configuration. -/
theorem c9_amended (s : LLMService) (text : String) (n : Int) (r : ProviderRequest)
    (hn : n ≠ 0) (hr : (s.generate text (some n)).fst = .request r) :
    r.max_tokens = n ∧
    (s.generate text (some n)).snd = s ∧
    s.generate text (some 0) = s.generate text none := by
  refine ⟨?_, ?_, ?_⟩
  · simp only [LLMService.generate, if_neg hn] at hr
    split at hr <;> [skip; split at hr] <;> [skip; skip; split at hr]
    · cases hr
      rfl
    · cases hr
      rfl
    · cases hr
      rfl
    · cases hr
  · simp only [LLMService.generate]
    split
    · rfl
    · split
      · rfl
      · split <;> rfl
  · rfl

/-- C9 witness: the amended claim at the concrete OpenAI service with
override 5. -/
theorem c9_witness :
    reqW5.max_tokens = 5 ∧
    (svcOpenai.generate "hi" (some 5)).snd = svcOpenai ∧
    svcOpenai.generate "hi" (some 0) = svcOpenai.generate "hi" none :=
  c9_amended svcOpenai "hi" 5 reqW5 (by decide) (by decide)

/-- C10: when a Telegram update carries both a regular message and an edited
message, each with non-empty text, extraction returns the chat id and text of
the regular message. -/
theorem c10_message_precedence (u : TelegramUpdate) (m em : TelegramMessage) (t et : String)
    (hm : u.message = some m) (ht : m.text = some t) (hne : t ≠ "")
    (_hem : u.edited_message = some em) (_het : em.text = some et) (_hene : et ≠ "") :
    TelegramController.extract_message_data u = some (m.chat.id, t) :=
  extract_eq_of_message u m t hm ht hne

/-- C10 witness: an update with both variants populated extracts the regular
message. -/
theorem c10_witness :
    TelegramController.extract_message_data updBoth = some (42, "hello") :=
  c10_message_precedence updBoth ⟨5, ⟨42⟩, 0, some "hello"⟩ ⟨6, ⟨43⟩, 0, some "edited"⟩
    "hello" "edited" rfl rfl (by decide) rfl rfl (by decide)

/-- C3: a WhatsApp request whose `X-Twilio-Signature` header does not equal
the gateway-computed signature of the URL and form body — in particular any
request with the header absent, as long as the computed signature is
non-empty — is rejected with HTTP 403, with no provider call and no reply,
regardless of the body's content. -/
theorem c3_signature_gate (mac : String → List (String × String) → String)
    (llm : String → Outcome) (req : WhatsappRequest) :
    (dictGet req.headers "X-Twilio-Signature" "" ≠ mac req.url req.form →
      whatsapp_webhook mac llm req = ⟨403, [], []⟩) ∧
    (dictGetOpt req.headers "X-Twilio-Signature" = none → mac req.url req.form ≠ "" →
      whatsapp_webhook mac llm req = ⟨403, [], []⟩) := by
  constructor
  · intro h
    simp only [whatsapp_webhook, if_neg h]
  · intro hnone hmac
    have hget : dictGet req.headers "X-Twilio-Signature" "" = "" := by
      unfold dictGet
      unfold dictGetOpt at hnone
      cases hfind : req.headers.find? (fun p => p.fst = "X-Twilio-Signature") with
      | none => rfl
      | some p =>
        rw [hfind] at hnone
        simp at hnone
    have h : dictGet req.headers "X-Twilio-Signature" "" ≠ mac req.url req.form := by
      rw [hget]
      exact fun he => hmac he.symm
    simp only [whatsapp_webhook, if_neg h]

/-- C3 witness: a forged signature and a missing header are both refused. -/
theorem c3_witness :
    whatsapp_webhook macW llmEcho reqForged = ⟨403, [], []⟩ ∧
    whatsapp_webhook macW llmEcho reqNoSig = ⟨403, [], []⟩ :=
  ⟨(c3_signature_gate macW llmEcho reqForged).1 (by decide),
   (c3_signature_gate macW llmEcho reqNoSig).2 (by decide) (by decide)⟩

/-- C6: the claim says every message forwarded to the provider has text
non-empty after trimming whitespace.  Counterexample: a Telegram message
whose text is a single space is truthy, so it is forwarded to the provider
verbatim although it is empty after trimming. -/
theorem c6_counterexample :
    (webhook llmEcho true (some updWhitespace)).generate_calls = [" "] ∧
    pyStrip " " = "" := by
  decide

/-- C6 (amended): on WhatsApp every forwarded prompt is the stripped `Body`
field and is non-empty, and on Discord every forwarded prompt is non-empty
after stripping; the Telegram path, however, forwards the raw text whenever
it is a non-empty string, even when it is whitespace-only (empty after
trimming). -/
theorem c6_amended :
    (∀ (llm : String → Outcome) (sendOk : Bool) (u : TelegramUpdate)
        (m : TelegramMessage) (t : String),
        u.message = some m → m.text = some t → t ≠ "" →
        (webhook llm sendOk (some u)).generate_calls = [t]) ∧
    (∀ (mac : String → List (String × String) → String) (llm : String → Outcome)
        (req : WhatsappRequest) (t : String),
        t ∈ (whatsapp_webhook mac llm req).generate_calls →
        t = pyStrip (dictGet req.form "Body" "") ∧ t ≠ "") ∧
    (∀ (ask : String → String) (bot_user_id : Nat) (typingExc replyExc : Option String)
        (m : DiscordMessage) (p : String),
        p ∈ (on_message ask bot_user_id typingExc replyExc m).ask_calls → p ≠ "") := by
  refine ⟨?_, ?_, ?_⟩
  · intro llm sendOk u m t hm ht hne
    have hext := extract_eq_of_message u m t hm ht hne
    simp only [webhook, hext]
    cases llm t with
    | err e => rfl
    | ok r => cases sendOk <;> rfl
  · intro mac llm req t hmem
    simp only [whatsapp_webhook] at hmem
    split at hmem
    · split at hmem
      · simp at hmem
      · rename_i hbody
        split at hmem <;>
          · simp at hmem
            exact ⟨hmem, hmem ▸ hbody⟩
    · simp at hmem
  · intro ask bot_user_id typingExc replyExc m p hmem
    simp only [on_message] at hmem
    split at hmem
    · simp at hmem
    · split at hmem
      · rename_i hp
        split at hmem
        · rename_i hne
          split at hmem
          · simp at hmem
          · split at hmem <;>
              · simp at hmem
                exact hmem ▸ hne
        · simp at hmem
      · simp at hmem

/-- C6 witness: the amended claim at a plain Telegram message, a padded
WhatsApp body and a padded Discord DM. -/
theorem c6_witness :
    (webhook llmEcho true (some updHello)).generate_calls = ["hello"] ∧
    ("hi" = pyStrip (dictGet reqHiPadded.form "Body" "") ∧ ("hi" : String) ≠ "") ∧
    ("x" : String) ≠ "" :=
  ⟨c6_amended.1 llmEcho true updHello ⟨5, ⟨42⟩, 0, some "hello"⟩ "hello" rfl rfl (by decide),
   c6_amended.2.1 macW llmEcho reqHiPadded "hi" (by decide),
   c6_amended.2.2 (fun p => p) 9 none none msgPadded "x" (by decide)⟩

/-- C7: the claim says a payload with no actionable text triggers no provider
call and no send or reply.  Counterexample: a correctly signed WhatsApp
request whose body strips to empty makes no provider call but does return a
gateway reply `Empty message received.` to the sender. -/
theorem c7_counterexample :
    whatsapp_webhook macW llmEcho reqEmptyBody = ⟨200, [], ["Empty message received."]⟩ ∧
    (whatsapp_webhook macW llmEcho reqEmptyBody).reply_messages ≠ [] := by
  decide

/-- C7 (amended): a Telegram update with no actionable text produces no
provider call, no typing action and no send; a WhatsApp request whose body
strips to empty produces no provider call but returns the fixed gateway
reply `Empty message received.`. -/
theorem c7_amended :
    (∀ (llm : String → Outcome) (sendOk : Bool) (u : TelegramUpdate),
        TelegramController.extract_message_data u = none →
        webhook llm sendOk (some u) = ⟨200, some "No text message", [], [], []⟩) ∧
    (∀ (mac : String → List (String × String) → String) (llm : String → Outcome)
        (req : WhatsappRequest),
        dictGet req.headers "X-Twilio-Signature" "" = mac req.url req.form →
        pyStrip (dictGet req.form "Body" "") = "" →
        whatsapp_webhook mac llm req = ⟨200, [], ["Empty message received."]⟩) := by
  constructor
  · intro llm sendOk u hext
    simp only [webhook, hext]
  · intro mac llm req hsig hbody
    simp [whatsapp_webhook, hsig, hbody]

/-- C7 witness: the amended claim at a no-text update and an all-whitespace
WhatsApp body. -/
theorem c7_witness :
    webhook llmEcho true (some updNoText) = ⟨200, some "No text message", [], [], []⟩ ∧
    whatsapp_webhook macW llmBoom reqEmptyBody = ⟨200, [], ["Empty message received."]⟩ :=
  ⟨c7_amended.1 llmEcho true updNoText (by decide),
   c7_amended.2 macW llmBoom reqEmptyBody (by decide) (by decide)⟩

/-- C1: the claim says a provider failure yields the same fixed fallback text
on every channel and never a string embedding the raw error.  Counterexample:
on a provider failure the WhatsApp handler replies with a different fixed
string than the Telegram one, the polling-DM listener sends nothing at all,
and the Discord client's failure path embeds the raw error message. -/
theorem c1_counterexample :
    (whatsapp_webhook macW llmBoom reqHello).reply_messages
      = ["Sorry, I ran into an error while processing your message. Please try again later."] ∧
    whatsappFallback ≠ telegramFallback ∧
    (dmCycle llmBoom [DmEventObj.dict ⟨"9", "u9", "hi"⟩] none).sent_dms = [] ∧
    LLMClient.ask ⟨some "http://llm", none⟩ (HttpResult.err "boom") (HttpResult.err "x")
      = "LLM server error: boom" := by
  decide

/-- C1 (amended): when the provider call raises, the Telegram webhook sends
exactly `telegramFallback` to the chat, and the WhatsApp handler replies with
exactly `whatsappFallback` — each a fixed string of its channel, but not the
same string across channels; the polling-DM listener sends no reply at all on
a provider failure; and the Discord client's LLM-server failure path returns
a reply embedding the raw error message. -/
theorem c1_amended :
    (∀ (llm : String → Outcome) (sendOk : Bool) (u : TelegramUpdate) (chat : Int) (t e : String),
        TelegramController.extract_message_data u = some (chat, t) → llm t = .err e →
        (webhook llm sendOk (some u)).sent_messages = [(chat, telegramFallback, none)]) ∧
    (∀ (mac : String → List (String × String) → String) (llm : String → Outcome)
        (req : WhatsappRequest) (e : String),
        dictGet req.headers "X-Twilio-Signature" "" = mac req.url req.form →
        pyStrip (dictGet req.form "Body" "") ≠ "" →
        llm (pyStrip (dictGet req.form "Body" "")) = .err e →
        (whatsapp_webhook mac llm req).reply_messages = [whatsappFallback]) ∧
    telegramFallback ≠ whatsappFallback ∧
    (∀ (llm : String → Outcome) (events : List DmEventObj) (last : Option String),
        (∀ t, ∃ e, llm t = Outcome.err e) →
        (dmCycle llm events last).sent_dms = []) ∧
    (∀ (c : LLMClient) (e : String) (openaiResp : HttpResult String),
        pyTruthyOpt c.server_url = true →
        c.ask (HttpResult.err e) openaiResp = "LLM server error: " ++ e) := by
  refine ⟨?_, ?_, by decide, ?_, ?_⟩
  · intro llm sendOk u chat t e hext hllm
    simp only [webhook, hext, hllm]
  · intro mac llm req e hsig hbody hllm
    simp only [whatsapp_webhook, if_pos hsig, if_neg hbody, hllm]
  · intro llm events last _herr
    rw [dmCycle_aborts]
  · intro c e openaiResp hs
    simp [LLMClient.ask, hs]

/-- C1 witness: the amended claim at concrete failing calls on all four
channels. -/
theorem c1_witness :
    (webhook llmBoom true (some updHello)).sent_messages = [(42, telegramFallback, none)] ∧
    (whatsapp_webhook macW llmBoom reqHello).reply_messages = [whatsappFallback] ∧
    (dmCycle llmBoom dmEventsDict none).sent_dms = [] ∧
    LLMClient.ask ⟨some "http://srv", none⟩ (HttpResult.err "timeout") (HttpResult.err "x")
      = "LLM server error: timeout" :=
  ⟨c1_amended.1 llmBoom true updHello 42 "hello" "boom" (by decide) rfl,
   c1_amended.2.1 macW llmBoom reqHello "boom" (by decide) (by decide) (by decide),
   c1_amended.2.2.2.1 llmBoom dmEventsDict none (fun _ => ⟨"boom", rfl⟩),
   c1_amended.2.2.2.2 ⟨some "http://srv", none⟩ "timeout" (HttpResult.err "x") (by decide)⟩

/-- C4: the claim says an over-limit reply is clamped and the pre-clamp text
is never sent verbatim.  Counterexample: a 1916-code-point reply consisting
of 1900 `a`s followed by the truncation marker exceeds the 1900 limit yet
equals its own clamp, so the Discord adapter sends the pre-clamp text
verbatim. -/
theorem c4_counterexample :
    pyLen fixedPoint1916 > 1900 ∧
    clampReply fixedPoint1916 = fixedPoint1916 ∧
    on_message (fun _ => fixedPoint1916) 7 none none msgHiDm
      = ⟨true, ["hi"], [fixedPoint1916]⟩ := by
  have hne : fixedPoint1916 ≠ "" := by
    intro h
    have hl := congrArg pyLen h
    rw [fixedPoint1916_len] at hl
    exact absurd hl (by decide)
  refine ⟨by rw [fixedPoint1916_len]; norm_num, fixedPoint1916_clamp, ?_⟩
  have h1 : pyStrip "hi" = "hi" := by decide
  have h2 : ("hi" : String) ≠ "" := by decide
  simp only [on_message, msgHiDm, h1, if_pos h2, if_neg hne, fixedPoint1916_clamp]
  simp [h2]

/-- C4 (amended): on the one channel with a message-size limit (Discord,
1900 code points), a provider reply exceeding the limit is sent as its first
1900 code points with the truncation marker appended, and is sent verbatim
only in the degenerate case where it already equals its own clamp — for
every other over-limit reply the pre-clamp text is not sent verbatim.  Every
text the handler passes to `message.reply` is either such a clamped reply
(at most 1916 code points) or the unclamped error notice
`Error generating reply: <e>` sent by the `except` branch when the send path
itself raises; the provider reply is never passed on un-clamped. -/
theorem c4_amended (reply : String) (h : pyLen reply > 1900) :
    clampReply reply = pySlice reply 1900 ++ truncationMarker ∧
    (reply ≠ pySlice reply 1900 ++ truncationMarker → clampReply reply ≠ reply) ∧
    (∀ (ask : String → String) (bot_user_id : Nat) (typingExc replyExc : Option String)
        (m : DiscordMessage) (r : String),
        r ∈ (on_message ask bot_user_id typingExc replyExc m).replies →
        pyLen r ≤ 1916 ∨ ∃ e, r = "Error generating reply: " ++ e) := by
  have hclamp : clampReply reply = pySlice reply 1900 ++ truncationMarker := by
    rw [clampReply, if_pos h]
  refine ⟨hclamp, ?_, ?_⟩
  · intro hne hcontra
    exact hne (hcontra.symm.trans hclamp)
  · intro ask bot_user_id typingExc replyExc m r hmem
    simp only [on_message] at hmem
    split at hmem
    · simp at hmem
    · split at hmem
      · split at hmem
        · split at hmem
          · simp at hmem
            exact Or.inr ⟨_, hmem⟩
          · split at hmem
            · simp at hmem
              rcases hmem with hmem | hmem
              · exact Or.inl (hmem ▸ clampReply_le _)
              · exact Or.inr ⟨_, hmem⟩
            · simp at hmem
              exact Or.inl (hmem ▸ clampReply_le _)
        · simp at hmem
      · simp at hmem

/-- C4 witness: the amended claim at a 1901-code-point reply (genuinely
truncated, not sent verbatim) and at a short reply passing through the
adapter without exceptions. -/
theorem c4_witness :
    clampReply bigB = pySlice bigB 1900 ++ truncationMarker ∧
    clampReply bigB ≠ bigB ∧
    (pyLen "ok" ≤ 1916 ∨ ∃ e, ("ok" : String) = "Error generating reply: " ++ e) := by
  have hB : pyLen bigB > 1900 := by rw [bigB_len]; norm_num
  exact ⟨(c4_amended bigB hB).1,
         (c4_amended bigB hB).2.1 bigB_ne_clamp_form,
         (c4_amended bigB hB).2.2 (fun _ => "ok") 7 none none msgHiDm "ok" (by decide)⟩

end TextToLLM
